import Mathlib

set_option maxHeartbeats 1000000
set_option linter.unusedVariables false

/- Verification development for `query_generators/openai.py`
   (class `OpenAIQueryGenerator`).  The Python code is shallowly embedded:
   the completion service, the schema pruner, `str.format` and the tiktoken
   encoder are oracles passed in as pure functions; wall-clock timeout of
   `func_timeout` is an oracle boolean; exceptions are `Except` values. -/

namespace SqlEval

/-! ## Python string primitives -/

/-- Python `s.split(sep)` for a nonempty separator, on character lists.
The fuel argument bounds recursion; any `fuel ≥ s.length` gives the real
answer (each step consumes at least one character). -/
def pySplitAux (sep : List Char) : Nat → List Char → List (List Char)
  | _, [] => [[]]
  | 0, s => [s]
  | fuel + 1, c :: rest =>
    if sep.isPrefixOf (c :: rest) then
      [] :: pySplitAux sep fuel (rest.drop (sep.length - 1))
    else
      match pySplitAux sep fuel rest with
      | [] => [[c]]
      | seg :: segs => (c :: seg) :: segs

/-- Whether `sep` occurs as a contiguous sublist of `s` (Python `sep in s`). -/
def containsSub (sep : List Char) : List Char → Bool
  | [] => sep.isPrefixOf []
  | c :: rest => sep.isPrefixOf (c :: rest) || containsSub sep rest

/-- Python `xs[-1]` with a default for the (unreachable) empty case. -/
def lastD {α : Type} : List α → α → α
  | [], d => d
  | [a], _ => a
  | _ :: b :: l, d => lastD (b :: l) d

/-- Python `s.split(sep)` on strings. -/
def pySplit (s sep : String) : List String :=
  (pySplitAux sep.data s.data.length s.data).map String.mk

/-- Python `sep in s` on strings. -/
def containsSubS (sep s : String) : Bool :=
  containsSub sep.data s.data

/-- Python `xs[-1]` on a list of strings (split results are never empty). -/
def lastDS (xs : List String) : String := lastD xs ""

/-- Python `xs[0]` on a split result (split results are never empty). -/
def headDS (xs : List String) : String := xs.headD ""

/-! ## Exceptions and API values -/

/-- The Python exception classes the module distinguishes. -/
inductive PyExc where
  | rateLimitError
  | serviceUnavailableError
  | keyError (k : String)
  | indexError
  | attributeError (msg : String)
  | typeError (msg : String)
  | otherError (name msg : String)
deriving DecidableEq, Repr

/-- The transient-overload class caught by the first `except` clause
(`openai.error.RateLimitError`, `openai.error.ServiceUnavailableError`). -/
def PyExc.isTransient : PyExc → Bool
  | .rateLimitError => true
  | .serviceUnavailableError => true
  | _ => false

/-- Rendering of `type(e)` used in the error strings of `generate_query`. -/
def PyExc.typeName : PyExc → String
  | .rateLimitError => "RateLimitError"
  | .serviceUnavailableError => "ServiceUnavailableError"
  | .keyError _ => "KeyError"
  | .indexError => "IndexError"
  | .attributeError _ => "AttributeError"
  | .typeError _ => "TypeError"
  | .otherError n _ => n

/-- Rendering of `str(e)` used in the error strings of `generate_query`. -/
def PyExc.msgStr : PyExc → String
  | .rateLimitError => "rate limit"
  | .serviceUnavailableError => "service unavailable"
  | .keyError k => "'" ++ k ++ "'"
  | .indexError => "list index out of range"
  | .attributeError m => m
  | .typeError m => m
  | .otherError _ m => m

/-- JSON-like value returned by the completion service client. -/
inductive PyVal where
  | str (s : String)
  | num (n : Int)
  | arr (xs : List PyVal)
  | dict (fields : List (String × PyVal))

/-- Python `v[k]` for a string key: `KeyError` when absent. -/
def PyVal.getKey : PyVal → String → Except PyExc PyVal
  | .dict fs, k =>
    match fs.lookup k with
    | some v => .ok v
    | none => .error (.keyError k)
  | _, _ => .error (.typeError "value is not subscriptable by str")

/-- Python `v[i]` for an integer index on a list value. -/
def PyVal.getIdx : PyVal → Nat → Except PyExc PyVal
  | .arr xs, i =>
    match xs.get? i with
    | some v => .ok v
    | none => .error .indexError
  | _, _ => .error (.typeError "value is not subscriptable by int")

/-- Coercion of a `PyVal` to the string the code assigns to `generated_text`. -/
def PyVal.asStr : PyVal → Except PyExc String
  | .str s => .ok s
  | _ => .error (.typeError "expected a str value")

/-! ## API requests and the service oracle -/

/-- Which client function is invoked: `openai.ChatCompletion.create` or
`openai.Completion.create`. -/
inductive ApiFunc where
  | chatCompletionCreate
  | completionCreate
deriving DecidableEq, Repr

/-- One message dict of the chat payload; insertion order of the source is
`role` then `content`. -/
structure Message where
  role : String
  content : String
deriving DecidableEq, Repr

/-- The payload keyword actually passed: `messages=` a list of role-tagged
dicts, or `prompt=` a single string. -/
inductive Payload where
  | messages (ms : List Message)
  | prompt (p : String)
deriving DecidableEq, Repr

/-- The full keyword-argument set of one client call. -/
structure ApiRequest where
  func : ApiFunc
  model : String
  payload : Payload
  maxTokens : Nat
  temperature : Nat
  stop : List String
  logitBias : List (String × Int)
deriving DecidableEq, Repr

/-- Request built by `get_chat_completion` (both attempts, lines 46-53 and
60-67 of the source, which pass identical keyword arguments). -/
def mkChatReq (model : String) (messages : List Message) (maxTokens temperature : Nat)
    (stop : List String) (logitBias : List (String × Int)) : ApiRequest :=
  ⟨.chatCompletionCreate, model, .messages messages, maxTokens, temperature, stop, logitBias⟩

/-- Request built by the first attempt of `get_nonchat_completion`
(lines 86-93: `openai.Completion.create` with `prompt=`). -/
def mkNonchatReq (model : String) (p : String) (maxTokens temperature : Nat)
    (stop : List String) (logitBias : List (String × Int)) : ApiRequest :=
  ⟨.completionCreate, model, .prompt p, maxTokens, temperature, stop, logitBias⟩

/-- Request built by the retry of `get_nonchat_completion` (lines 100-107:
the source calls `openai.ChatCompletion.create`, still with `prompt=`). -/
def mkNonchatRetryReq (model : String) (p : String) (maxTokens temperature : Nat)
    (stop : List String) (logitBias : List (String × Int)) : ApiRequest :=
  ⟨.chatCompletionCreate, model, .prompt p, maxTokens, temperature, stop, logitBias⟩

/-- The completion service: attempt index and request to outcome.  A `.error`
models the client call raising that exception. -/
def Svc : Type := Nat → ApiRequest → Except PyExc PyVal

/-- Lookup `completion["choices"][0]["message"]["content"]` (lines 54, 68). -/
def extract_chat_text (c : PyVal) : Except PyExc String := do
  let choices ← c.getKey "choices"
  let first ← choices.getIdx 0
  let msg ← first.getKey "message"
  let content ← msg.getKey "content"
  content.asStr

/-- Lookup `completion["choices"][0]["text"]` (lines 94, 108). -/
def extract_completion_text (c : PyVal) : Except PyExc String := do
  let choices ← c.getKey "choices"
  let first ← choices.getIdx 0
  let txt ← first.getKey "text"
  txt.asStr

/-- One attempt of the chat invoker: client call then content lookup. -/
def chatAttempt (svc : Svc) (n : Nat) (req : ApiRequest) : Except PyExc String :=
  match svc n req with
  | .error e => .error e
  | .ok c => extract_chat_text c

/-- One attempt of the nonchat invoker: client call then text lookup. -/
def nonchatAttempt (svc : Svc) (n : Nat) (req : ApiRequest) : Except PyExc String :=
  match svc n req with
  | .error e => .error e
  | .ok c => extract_completion_text c

/-! ## The two completion invokers

Source defaults are `max_tokens=600, temperature=0, stop=["```"],
logit_bias={}`; `generate_query` passes `400, 0, ["```"]` positionally and
leaves `logit_bias` at its default.  Here all arguments are explicit.

Python control flow note: an exception raised inside an `except` handler
(i.e. by the retry call or its result lookup) is NOT caught by the following
`except Exception` clause of the same `try`; it propagates to the caller.
The embedding returns the list of client calls actually issued together with
either the returned `generated_text` (`.ok`) or the escaping exception
(`.error`). -/

/-- Embedding of `get_chat_completion` (lines 34-72). -/
def get_chat_completion (svc : Svc) (verbose : Bool) (model : String)
    (messages : List Message) (max_tokens temperature : Nat)
    (stop : List String) (logit_bias : List (String × Int)) :
    List ApiRequest × Except PyExc String :=
  let req := mkChatReq model messages max_tokens temperature stop logit_bias
  match chatAttempt svc 0 req with
  | .ok t => ([req], .ok t)
  | .error e =>
    if e.isTransient then
      ([req, req], chatAttempt svc 1 req)
    else
      ([req], .ok "")

/-- Embedding of `get_nonchat_completion` (lines 74-112).  The retry at
line 100 invokes `openai.ChatCompletion.create` (with a `prompt=` keyword),
not `openai.Completion.create`; the embedding reproduces this. -/
def get_nonchat_completion (svc : Svc) (verbose : Bool) (model : String)
    (prompt : String) (max_tokens temperature : Nat)
    (stop : List String) (logit_bias : List (String × Int)) :
    List ApiRequest × Except PyExc String :=
  let req := mkNonchatReq model prompt max_tokens temperature stop logit_bias
  match nonchatAttempt svc 0 req with
  | .ok t => ([req], .ok t)
  | .error e =>
    if e.isTransient then
      let rreq := mkNonchatRetryReq model prompt max_tokens temperature stop logit_bias
      ([req, rreq], nonchatAttempt svc 1 rreq)
    else
      ([req], .ok "")

/-! ## Token counting -/

/-- Embedding of the static method `count_tokens` (lines 114-132).
`encode` is the oracle for `tiktoken.encoding_for_model(model).encode`.
Chat branch: `for message in messages: for _, value in message.items()`
adds the encoded length of each dict value; insertion order is the `role`
value then the `content` value. -/
def count_tokens (encode : String → String → List Nat) (model : String)
    (messages : List Message) (prompt : String) : Nat :=
  if model ≠ "text-davinci-003" then
    messages.foldl
      (fun acc m => acc + (encode model m.role).length + (encode model m.content).length) 0
  else
    (encode model prompt).length

/-! ## generate_query -/

/-- The pure environment of one `generate_query` call: the service oracle,
whether `func_timeout` hit the deadline (raising `FunctionTimedOut`), the
prompt file content, and the external collaborators `prune_metadata_str`,
`str.format` (template, user_question, table_metadata_string) and the
tiktoken encoder. -/
structure Env where
  svc : Svc
  timedOut : Bool
  promptFileContent : String
  pruneMetadata : String → String → String
  fmt : String → String → String → String
  encode : String → String → List Nat

/-- The generator state used by `generate_query`: constructor fields plus
`self.completion` as possibly left over from an earlier call (`none` when the
attribute was never assigned, in which case reading it raises
`AttributeError`). -/
structure Gen where
  dbName : String
  model : String
  timeout : Nat
  verbose : Bool
  completionAttr : Option String

/-- The returned dict (lines 205-211) without the wall-clock field. -/
structure GenResult where
  query : String
  reason : String
  err : String
  tokensUsed : Nat
deriving DecidableEq, Repr

/-- Extraction of the SQL payload: `results.split("```sql")[-1]` (line 184). -/
def extractQuery (raw : String) : String :=
  lastDS (pySplit raw "```sql")

/-- Python `xs[i]` on a split result: `IndexError` when out of range. -/
def pyIndexS (xs : List String) (i : Nat) : Except PyExc String :=
  match xs.get? i with
  | some v => .ok v
  | none => .error .indexError

/-- Error string of the generic handler (lines 195-198). -/
def errMsg (e : PyExc) : String :=
  "QUERY GENERATION ERROR: " ++ e.typeName ++ ", " ++ e.msgStr

/-- Post-processing of the `func_timeout` dispatch (lines 183-198): on a
returned text, extract the query and set the placeholder reason; on an
escaping exception, clear query and reason and build the error string, the
`KeyError` case interpolating `self.completion` (an `AttributeError`
propagates when that attribute was never assigned). -/
def finishCompletion (completionAttr : Option String) (tokens : Nat)
    (call : List ApiRequest × Except PyExc String) :
    List ApiRequest × Except PyExc GenResult :=
  match call with
  | (trace, .ok text) =>
    (trace, .ok ⟨extractQuery text, "-", "", tokens⟩)
  | (trace, .error (.keyError k)) =>
    match completionAttr with
    | none => (trace, .error (.attributeError "completion"))
    | some prev =>
      (trace, .ok ⟨"", "", errMsg (.keyError k) ++ ", Completion: " ++ prev, tokens⟩)
  | (trace, .error e) =>
    (trace, .ok ⟨"", "", errMsg e, tokens⟩)

/-- Embedding of `generate_query` (lines 134-211).  Returns the client calls
issued together with the returned dict (`.ok`) or the exception escaping
`generate_query` itself (`.error`, for the uncaught template `IndexError` of
lines 145-146 and the `AttributeError` of line 196). -/
def generate_query (env : Env) (g : Gen) (question : String) :
    List ApiRequest × Except PyExc GenResult :=
  let chat_prompt := env.promptFileContent
  if g.model ≠ "text-davinci-003" then
    match pyIndexS (pySplit chat_prompt "### Input:") 1 with
    | .error e => ([], .error e)
    | .ok inputTail =>
      let sys_text := headDS (pySplit chat_prompt "### Input:")
      let user_basic := headDS (pySplit inputTail "### Response:")
      match pyIndexS (pySplit chat_prompt "### Response:") 1 with
      | .error e => ([], .error e)
      | .ok assistant_text =>
        let user_text := env.fmt user_basic question (env.pruneMetadata question g.dbName)
        let messages : List Message :=
          [⟨"system", sys_text⟩, ⟨"user", user_text⟩, ⟨"assistant", assistant_text⟩]
        let tokens := count_tokens env.encode g.model messages ""
        if env.timedOut then
          ([], .ok ⟨"", "", "QUERY GENERATION TIMEOUT", tokens⟩)
        else
          finishCompletion g.completionAttr tokens
            (get_chat_completion env.svc g.verbose g.model messages 400 0 ["```"] [])
  else
    let prompt := env.fmt chat_prompt question (env.pruneMetadata question g.dbName)
    let tokens := count_tokens env.encode g.model [] prompt
    if env.timedOut then
      ([], .ok ⟨"", "", "QUERY GENERATION TIMEOUT", tokens⟩)
    else
      finishCompletion g.completionAttr tokens
        (get_nonchat_completion env.svc g.verbose g.model prompt 400 0 ["```"] [])

/-! ## Concrete instances used to evaluate the embedding -/

/-- A service that always succeeds, with a completion shaped so that both the
chat content lookup and the legacy text lookup find the string "OUT". -/
def demoSvc : Svc := fun _ _ =>
  .ok (.dict [("choices", .arr [.dict
        [("message", .dict [("content", .str "OUT")]), ("text", .str "OUT")]])])

/-- A chat-mode template with both delimiters present. -/
def demoTemplate : String := "S### Input:U### Response:A"

/-- A well-behaved environment: service succeeds, no timeout. -/
def demoEnv : Env :=
  ⟨demoSvc, false, demoTemplate, fun _ _ => "M", fun a b c => a ++ b ++ c, fun _ _ => []⟩

/-- Same environment but the `func_timeout` deadline elapses. -/
def demoEnvTimedOut : Env :=
  ⟨demoSvc, true, demoTemplate, fun _ _ => "M", fun a b c => a ++ b ++ c, fun _ _ => []⟩

/-- Environment for the legacy model: the whole template is the prompt. -/
def demoEnvLegacy : Env :=
  ⟨demoSvc, false, "TPL", fun _ _ => "M", fun a b c => a ++ b ++ c, fun _ _ => []⟩

/-- Environment whose template lacks the response-section delimiter. -/
def demoEnvNoResp : Env :=
  ⟨demoSvc, false, "S### Input:U only", fun _ _ => "M", fun a b c => a ++ b ++ c,
   fun _ _ => []⟩

/-- Environment whose service raises a permanent (non-transient) error. -/
def demoEnvFailing : Env :=
  ⟨fun _ _ => .error (.otherError "APIError" "permanent failure"), false,
   demoTemplate, fun _ _ => "M", fun a b c => a ++ b ++ c, fun _ _ => []⟩

/-- Generator state configured for a chat model. -/
def demoGenChat : Gen := ⟨"db", "gpt-4-0613", 5, false, none⟩

/-- Generator state configured for the legacy model. -/
def demoGenLegacy : Gen := ⟨"db", "text-davinci-003", 5, false, none⟩

/-- A concrete injective encoder standing in for a tiktoken encoding. -/
def demoEncode : String → String → List Nat := fun _ s => s.data.map Char.toNat

/-! ## Lemmas about the split primitives -/

theorem pySplitAux_ne_nil (sep : List Char) : ∀ fuel s, pySplitAux sep fuel s ≠ [] := by
  intro fuel s
  match fuel, s with
  | _, [] => simp [pySplitAux]
  | 0, c :: rest => simp [pySplitAux]
  | fuel + 1, c :: rest =>
    simp only [pySplitAux]
    split
    · simp
    · split <;> simp

theorem pySplitAux_singleton (sep : List Char) :
    ∀ fuel s t, s.length ≤ fuel → pySplitAux sep fuel s = [t] → t = s := by
  intro fuel
  induction fuel with
  | zero =>
    intro s t hle h
    have hs : s = [] := List.eq_nil_of_length_eq_zero (Nat.le_zero.mp hle)
    subst hs
    simp [pySplitAux] at h
    exact h
  | succ fuel ih =>
    intro s t hle h
    match s with
    | [] =>
      simp [pySplitAux] at h
      exact h
    | c :: rest =>
      simp only [pySplitAux] at h
      split at h
      · injection h with h1 h2
        exact absurd h2 (pySplitAux_ne_nil sep fuel _)
      · split at h
        · exact absurd (by assumption) (pySplitAux_ne_nil sep fuel rest)
        · rename_i seg segs heq
          injection h with h1 h2
          subst h2
          have hseg : seg = rest :=
            ih rest seg (Nat.le_of_succ_le_succ hle) heq
          rw [← h1, hseg]

theorem pySplitAux_of_not_contains (sep : List Char) :
    ∀ fuel s, s.length ≤ fuel → containsSub sep s = false →
      pySplitAux sep fuel s = [s] := by
  intro fuel
  induction fuel with
  | zero =>
    intro s hle hnc
    have hs : s = [] := List.eq_nil_of_length_eq_zero (Nat.le_zero.mp hle)
    subst hs
    rfl
  | succ fuel ih =>
    intro s hle hnc
    match s with
    | [] => rfl
    | c :: rest =>
      simp only [containsSub, Bool.or_eq_false_iff] at hnc
      simp [pySplitAux, hnc.1, ih rest (Nat.le_of_succ_le_succ hle) hnc.2]

theorem lastD_cons_of_ne_nil {α : Type} (a : α) (l : List α) (d : α) (h : l ≠ []) :
    lastD (a :: l) d = lastD l d := by
  match l with
  | [] => exact absurd rfl h
  | b :: l2 => rfl

theorem containsSub_lastD_pySplitAux (sep : List Char) (hsep : sep ≠ []) :
    ∀ fuel s, s.length ≤ fuel →
      containsSub sep (lastD (pySplitAux sep fuel s) []) = false := by
  have hbase : containsSub sep [] = false := by
    match sep with
    | [] => exact absurd rfl hsep
    | x :: xs => rfl
  intro fuel
  induction fuel with
  | zero =>
    intro s hle
    have hs : s = [] := List.eq_nil_of_length_eq_zero (Nat.le_zero.mp hle)
    subst hs
    exact hbase
  | succ fuel ih =>
    intro s hle
    match s with
    | [] => exact hbase
    | c :: rest =>
      simp only [pySplitAux]
      split
      · rw [lastD_cons_of_ne_nil _ _ _ (pySplitAux_ne_nil sep fuel _)]
        refine ih _ ?_
        rw [List.length_drop]
        simp only [List.length_cons] at hle
        omega
      · rename_i hnp
        split
        · exact absurd (by assumption) (pySplitAux_ne_nil sep fuel rest)
        · rename_i seg segs heq
          match segs with
          | [] =>
            have hseg : seg = rest :=
              pySplitAux_singleton sep fuel rest seg (Nat.le_of_succ_le_succ hle) heq
            subst hseg
            show containsSub sep (c :: seg) = false
            simp only [containsSub, Bool.or_eq_false_iff]
            refine ⟨Bool.eq_false_iff.mpr hnp, ?_⟩
            have := ih seg (Nat.le_of_succ_le_succ hle)
            rwa [heq] at this
          | g :: gs =>
            show containsSub sep (lastD ((c :: seg) :: g :: gs) []) = false
            rw [lastD_cons_of_ne_nil _ _ _ (by simp)]
            have := ih rest (Nat.le_of_succ_le_succ hle)
            rwa [heq, lastD_cons_of_ne_nil _ _ _ (by simp)] at this

theorem lastD_map {α β : Type} (f : α → β) :
    ∀ (l : List α) (d : α), lastD (l.map f) (f d) = f (lastD l d) := by
  intro l
  induction l with
  | nil => intro d; rfl
  | cons a l ih =>
    intro d
    match l with
    | [] => rfl
    | b :: l2 =>
      show lastD (f b :: l2.map f) (f d) = f (lastD (b :: l2) d)
      exact ih d

theorem pySplit_of_not_contains (s sep : String) (h : containsSubS sep s = false) :
    pySplit s sep = [s] := by
  unfold pySplit
  rw [pySplitAux_of_not_contains sep.data s.data.length s.data (Nat.le_refl _) h]
  rfl

/-! ## Lemmas about the pipeline pieces -/

theorem pyIndexS_error (xs : List String) (i : Nat) (e : PyExc)
    (h : pyIndexS xs i = .error e) : e = .indexError := by
  unfold pyIndexS at h
  rcases hx : xs.get? i with _ | v <;> rw [hx] at h <;> simp_all

theorem count_foldl (encode : String → String → List Nat) (model : String) :
    ∀ (l : List Message) (n : Nat),
      l.foldl (fun acc m =>
          acc + (encode model m.role).length + (encode model m.content).length) n
        = n + (l.map (fun m =>
            (encode model m.role).length + (encode model m.content).length)).sum := by
  intro l
  induction l with
  | nil => intro n; simp
  | cons a l ih => intro n; simp [List.foldl_cons, ih]; omega

theorem fst_finishCompletion (ca : Option String) (tk : Nat)
    (p : List ApiRequest × Except PyExc String) :
    (finishCompletion ca tk p).fst = p.fst := by
  unfold finishCompletion
  rcases p with ⟨tr, res⟩
  match res with
  | .ok t => rfl
  | .error (.keyError k) => cases ca <;> rfl
  | .error .rateLimitError => rfl
  | .error .serviceUnavailableError => rfl
  | .error .indexError => rfl
  | .error (.attributeError m) => rfl
  | .error (.typeError m) => rfl
  | .error (.otherError n m) => rfl

theorem finishCompletion_ok_cases (ca : Option String) (tk : Nat)
    (p : List ApiRequest × Except PyExc String) (tr : List ApiRequest) (r : GenResult)
    (h : finishCompletion ca tk p = (tr, .ok r)) : r.query = "" ∨ r.err = "" := by
  rcases p with ⟨tr0, res⟩
  match res with
  | .ok t =>
    simp only [finishCompletion, Prod.mk.injEq, Except.ok.injEq] at h
    right; rw [← h.2]
  | .error .rateLimitError =>
    simp only [finishCompletion, Prod.mk.injEq, Except.ok.injEq] at h
    left; rw [← h.2]
  | .error .serviceUnavailableError =>
    simp only [finishCompletion, Prod.mk.injEq, Except.ok.injEq] at h
    left; rw [← h.2]
  | .error .indexError =>
    simp only [finishCompletion, Prod.mk.injEq, Except.ok.injEq] at h
    left; rw [← h.2]
  | .error (.attributeError m) =>
    simp only [finishCompletion, Prod.mk.injEq, Except.ok.injEq] at h
    left; rw [← h.2]
  | .error (.typeError m) =>
    simp only [finishCompletion, Prod.mk.injEq, Except.ok.injEq] at h
    left; rw [← h.2]
  | .error (.otherError n m) =>
    simp only [finishCompletion, Prod.mk.injEq, Except.ok.injEq] at h
    left; rw [← h.2]
  | .error (.keyError k) =>
    match ca with
    | none => simp [finishCompletion] at h
    | some prev =>
      simp only [finishCompletion, Prod.mk.injEq, Except.ok.injEq] at h
      left; rw [← h.2]

theorem invoker_fst_chat (svc : Svc) (v : Bool) (model : String) (msgs : List Message)
    (mt t : Nat) (st : List String) (lb : List (String × Int)) :
    (get_chat_completion svc v model msgs mt t st lb).fst.head?
      = some (mkChatReq model msgs mt t st lb) := by
  simp only [get_chat_completion]
  split
  · rfl
  · split <;> rfl

theorem invoker_fst_nonchat (svc : Svc) (v : Bool) (model p : String)
    (mt t : Nat) (st : List String) (lb : List (String × Int)) :
    (get_nonchat_completion svc v model p mt t st lb).fst.head?
      = some (mkNonchatReq model p mt t st lb) := by
  simp only [get_nonchat_completion]
  split
  · rfl
  · split <;> rfl

/-! ## Claim theorems -/

/-- Claim C1: the claim says that on a transient-overload first failure both
invocation variants retry through the same invocation variant with identical
parameters.  The code violates this for the legacy variant: when the first
`openai.Completion.create` call raises `RateLimitError` and a retry happens,
the retried call of `get_nonchat_completion` goes through
`openai.ChatCompletion.create` (chat endpoint, still with a `prompt` keyword),
as this evaluation of the embedding at a concrete service shows. -/
theorem nonchat_retry_uses_chat_endpoint :
    (get_nonchat_completion
      (fun n _ =>
        if n = 0 then .error .rateLimitError
        else .ok (.dict [("choices", .arr [.dict [("text", .str "SELECT 1")]])]))
      false "text-davinci-003" "PROMPT" 400 0 ["```"] []).fst
      = [mkNonchatReq "text-davinci-003" "PROMPT" 400 0 ["```"] [],
         mkNonchatRetryReq "text-davinci-003" "PROMPT" 400 0 ["```"] []] ∧
    (mkNonchatReq "text-davinci-003" "PROMPT" 400 0 ["```"] []).func
      = ApiFunc.completionCreate ∧
    (mkNonchatRetryReq "text-davinci-003" "PROMPT" 400 0 ["```"] []).func
      = ApiFunc.chatCompletionCreate ∧
    ApiFunc.chatCompletionCreate ≠ ApiFunc.completionCreate :=
  ⟨rfl, rfl, rfl, by decide⟩

/-- Claim C2 (counterexample): the claim says the invoker never raises past
its boundary.  But an exception raised by the retried attempt happens inside
the first `except` handler, so the following `except Exception` clause does
not catch it: with a service whose first attempt is rate-limited and whose
retry fails with a non-transient error, `get_chat_completion` propagates that
error to its caller instead of returning empty text. -/
theorem chat_invoker_raises_on_retry_failure :
    (get_chat_completion
      (fun n _ =>
        if n = 0 then .error .rateLimitError
        else .error (.otherError "APIError" "boom"))
      false "gpt-4-0613" [⟨"user", "hi"⟩] 400 0 ["```"] []).snd
      = .error (.otherError "APIError" "boom") := rfl

/-- Claim C2 (amended): a non-transient exception during the FIRST attempt is
swallowed and the invoker returns an empty generated text, for both variants;
but an exception raised during the retried attempt propagates to the caller
(for both variants). -/
theorem completion_invoker_error_policy (svc : Svc) (v : Bool) (model p : String)
    (msgs : List Message) (mt t : Nat) (st : List String) (lb : List (String × Int))
    (e e2 : PyExc) :
    (e.isTransient = false →
       chatAttempt svc 0 (mkChatReq model msgs mt t st lb) = .error e →
       get_chat_completion svc v model msgs mt t st lb
         = ([mkChatReq model msgs mt t st lb], .ok "")) ∧
    (e.isTransient = false →
       nonchatAttempt svc 0 (mkNonchatReq model p mt t st lb) = .error e →
       get_nonchat_completion svc v model p mt t st lb
         = ([mkNonchatReq model p mt t st lb], .ok "")) ∧
    (e.isTransient = true →
       chatAttempt svc 0 (mkChatReq model msgs mt t st lb) = .error e →
       chatAttempt svc 1 (mkChatReq model msgs mt t st lb) = .error e2 →
       (get_chat_completion svc v model msgs mt t st lb).snd = .error e2) ∧
    (e.isTransient = true →
       nonchatAttempt svc 0 (mkNonchatReq model p mt t st lb) = .error e →
       nonchatAttempt svc 1 (mkNonchatRetryReq model p mt t st lb) = .error e2 →
       (get_nonchat_completion svc v model p mt t st lb).snd = .error e2) := by
  refine ⟨?_, ?_, ?_, ?_⟩
  · intro h1 h2
    simp only [get_chat_completion]
    rw [h2]
    simp [h1]
  · intro h1 h2
    simp only [get_nonchat_completion]
    rw [h2]
    simp [h1]
  · intro h1 h2 h3
    simp only [get_chat_completion]
    rw [h2]
    simp [h1, h3]
  · intro h1 h2 h3
    simp only [get_nonchat_completion]
    rw [h2]
    simp [h1, h3]

/-- Witness: a permanent first-attempt failure yields empty text without
raising, and a retry-time failure propagates, at concrete services. -/
theorem completion_invoker_error_policy_witness :
    get_chat_completion (fun _ _ => .error (.otherError "APIError" "down"))
        false "gpt-4-0613" [⟨"user", "hi"⟩] 400 0 ["```"] []
      = ([mkChatReq "gpt-4-0613" [⟨"user", "hi"⟩] 400 0 ["```"] []], .ok "") ∧
    (get_nonchat_completion
        (fun n _ =>
          if n = 0 then .error .serviceUnavailableError
          else .error (.keyError "text"))
        false "text-davinci-003" "P" 400 0 ["```"] []).snd
      = .error (.keyError "text") :=
  ⟨(completion_invoker_error_policy
      (fun _ _ => .error (.otherError "APIError" "down"))
      false "gpt-4-0613" "P" [⟨"user", "hi"⟩] 400 0 ["```"] []
      (.otherError "APIError" "down") (.keyError "text")).1 rfl rfl,
   (completion_invoker_error_policy
      (fun n _ =>
        if n = 0 then .error .serviceUnavailableError
        else .error (.keyError "text"))
      false "text-davinci-003" "P" [⟨"user", "hi"⟩] 400 0 ["```"] []
      .serviceUnavailableError (.keyError "text")).2.2.2 rfl rfl rfl⟩

/-- Claim C3 (counterexample): for the raw text containing a trailing fence,
the extractor keeps that trailing fence in the final segment: it returns
the string " SELECT 1 " followed by three backticks, not " SELECT 1 " as the
claim states. -/
theorem extract_fence_cex :
    extractQuery "blah ```sql SELECT 1 ```" = " SELECT 1 ```" ∧
    extractQuery "blah ```sql SELECT 1 ```" ≠ " SELECT 1 " := by
  constructor
  · rfl
  · decide

/-- Claim C3 (amended): for the raw text of the claim the extractor returns
" SELECT 1 " with the raw text's trailing fence appended (the split removes
only the occurrences of the marker itself); and every raw text containing no
marker is returned unchanged. -/
theorem extract_fence_semantics :
    extractQuery "blah ```sql SELECT 1 ```" = " SELECT 1 ```" ∧
    (∀ s : String, containsSubS "```sql" s = false → extractQuery s = s) := by
  constructor
  · rfl
  · intro s h
    unfold extractQuery lastDS
    rw [pySplit_of_not_contains s "```sql" h]
    rfl

/-- Witness: a marker-free raw text is returned unchanged. -/
theorem extract_fence_semantics_witness :
    extractQuery "SELECT 2 FROM t" = "SELECT 2 FROM t" :=
  extract_fence_semantics.2 "SELECT 2 FROM t" (by decide)

/-- Claim C4 (counterexample): when the service fails permanently on the
first attempt, the invoker swallows the error and returns empty text, and
`generate_query` then terminates with BOTH `query` and `err` empty — so
"exactly one of non-empty query / non-empty error" is violated on this
terminal path. -/
theorem generate_query_both_empty_cex :
    (generate_query demoEnvFailing demoGenChat "q").snd
      = .ok ⟨"", "-", "", 0⟩ ∧
    ¬ ((((⟨"", "-", "", 0⟩ : GenResult).query ≠ ""
          ∧ (⟨"", "-", "", 0⟩ : GenResult).err = "")
        ∨ ((⟨"", "-", "", 0⟩ : GenResult).query = ""
          ∧ (⟨"", "-", "", 0⟩ : GenResult).err ≠ ""))) :=
  ⟨rfl, by decide⟩

/-- Claim C4 (amended): on every terminal path on which `generate_query`
returns a result, at most one of `query`, `err` is non-empty (never both);
both may be empty when the completion layer swallows an error and hands back
an empty generated text. -/
theorem generate_query_never_both_nonempty (env : Env) (g : Gen) (q : String)
    (tr : List ApiRequest) (r : GenResult)
    (h : generate_query env g q = (tr, .ok r)) :
    r.query = "" ∨ r.err = "" := by
  by_cases hm : g.model = "text-davinci-003"
  · by_cases ht : env.timedOut = true
    · simp only [generate_query, hm, ht, ne_eq, not_true_eq_false, if_false, if_true,
        Prod.mk.injEq, Except.ok.injEq] at h
      left; rw [← h.2]
    · simp only [generate_query, hm, ne_eq, not_true_eq_false, if_false,
        Bool.not_eq_true] at h
      rw [if_neg (by simp [Bool.not_eq_true] at ht; simp [ht])] at h
      exact finishCompletion_ok_cases _ _ _ _ _ h
  · rcases h1 : pyIndexS (pySplit env.promptFileContent "### Input:") 1 with e | tail
    · simp [generate_query, hm, h1] at h
    · rcases h2 : pyIndexS (pySplit env.promptFileContent "### Response:") 1 with e | asst
      · simp [generate_query, hm, h1, h2] at h
      · by_cases ht : env.timedOut = true
        · simp only [generate_query, hm, ne_eq, not_false_eq_true, if_true, h1, h2, ht,
            Prod.mk.injEq, Except.ok.injEq] at h
          left; rw [← h.2]
        · simp only [generate_query, hm, ne_eq, not_false_eq_true, if_true, h1, h2,
            Bool.not_eq_true] at h
          rw [if_neg (by simp [Bool.not_eq_true] at ht; simp [ht])] at h
          exact finishCompletion_ok_cases _ _ _ _ _ h

/-- Witness: a successful run returns a non-empty query and an empty error. -/
theorem generate_query_never_both_nonempty_witness :
    (⟨"OUT", "-", "", 0⟩ : GenResult).query = ""
      ∨ (⟨"OUT", "-", "", 0⟩ : GenResult).err = "" :=
  generate_query_never_both_nonempty demoEnv demoGenChat "q"
    [mkChatReq "gpt-4-0613"
      [⟨"system", "S"⟩, ⟨"user", "UqM"⟩, ⟨"assistant", "A"⟩] 400 0 ["```"] []]
    ⟨"OUT", "-", "", 0⟩ rfl

/-- Claim C5: whenever the completion invocation exceeds the deadline (the
`func_timeout` oracle reports `FunctionTimedOut`) and `generate_query`
returns, the result has `err = "QUERY GENERATION TIMEOUT"` and empty `query`
and `reason`. -/
theorem generate_query_timeout_result (env : Env) (g : Gen) (q : String)
    (tr : List ApiRequest) (r : GenResult)
    (ht : env.timedOut = true)
    (h : generate_query env g q = (tr, .ok r)) :
    r.err = "QUERY GENERATION TIMEOUT" ∧ r.query = "" ∧ r.reason = "" := by
  by_cases hm : g.model = "text-davinci-003"
  · simp only [generate_query, hm, ne_eq, not_true_eq_false, if_false, ht, if_true,
      Prod.mk.injEq, Except.ok.injEq] at h
    rw [← h.2]
    exact ⟨rfl, rfl, rfl⟩
  · rcases h1 : pyIndexS (pySplit env.promptFileContent "### Input:") 1 with e | tail
    · simp [generate_query, hm, h1] at h
    · rcases h2 : pyIndexS (pySplit env.promptFileContent "### Response:") 1 with e | asst
      · simp [generate_query, hm, h1, h2] at h
      · simp only [generate_query, hm, ne_eq, not_false_eq_true, if_true, h1, h2, ht,
          Prod.mk.injEq, Except.ok.injEq] at h
        rw [← h.2]
        exact ⟨rfl, rfl, rfl⟩

/-- Witness: a timed-out run at a concrete environment. -/
theorem generate_query_timeout_result_witness :
    (⟨"", "", "QUERY GENERATION TIMEOUT", 0⟩ : GenResult).err
        = "QUERY GENERATION TIMEOUT"
      ∧ (⟨"", "", "QUERY GENERATION TIMEOUT", 0⟩ : GenResult).query = ""
      ∧ (⟨"", "", "QUERY GENERATION TIMEOUT", 0⟩ : GenResult).reason = "" :=
  generate_query_timeout_result demoEnvTimedOut demoGenChat "q" []
    ⟨"", "", "QUERY GENERATION TIMEOUT", 0⟩ rfl rfl

/-- Claim C6: token counting is a pure function of the model identifier and
the message list / prompt string.  In chat mode (any model other than
"text-davinci-003") it sums the encoded lengths of every string value of
every message, the role tag values included; in legacy mode it returns the
encoded length of the single prompt string; and identical inputs always give
the identical count (immediate, as the embedding is a pure function of
exactly these inputs). -/
theorem count_tokens_pure_formula (encode : String → String → List Nat)
    (model : String) (messages : List Message) (prompt : String) :
    (model ≠ "text-davinci-003" →
       count_tokens encode model messages prompt
         = (messages.map (fun m =>
             (encode model m.role).length + (encode model m.content).length)).sum) ∧
    (model = "text-davinci-003" →
       count_tokens encode model messages prompt = (encode model prompt).length) ∧
    (∀ (messages2 : List Message) (prompt2 : String),
       messages2 = messages → prompt2 = prompt →
       count_tokens encode model messages2 prompt2
         = count_tokens encode model messages prompt) := by
  refine ⟨?_, ?_, ?_⟩
  · intro h
    simp only [count_tokens, if_pos h]
    rw [count_foldl]
    omega
  · intro h
    simp [count_tokens, h]
  · intro messages2 prompt2 h1 h2
    rw [h1, h2]

/-- Witness: both counting modes at a concrete encoder. -/
theorem count_tokens_pure_formula_witness :
    count_tokens demoEncode "gpt-4-0613" [⟨"user", "ab"⟩] "xyz"
      = ([(⟨"user", "ab"⟩ : Message)].map (fun m =>
          (demoEncode "gpt-4-0613" m.role).length
            + (demoEncode "gpt-4-0613" m.content).length)).sum ∧
    count_tokens demoEncode "text-davinci-003" [⟨"user", "ab"⟩] "xyz"
      = (demoEncode "text-davinci-003" "xyz").length :=
  ⟨(count_tokens_pure_formula demoEncode "gpt-4-0613" [⟨"user", "ab"⟩] "xyz").1
      (by decide),
   (count_tokens_pure_formula demoEncode "text-davinci-003" [⟨"user", "ab"⟩] "xyz").2.1
      rfl⟩

/-- Claim C7: with a chat-mode model and a template in which the
response-section delimiter "### Response:" does not occur, `generate_query`
raises the template indexing error having issued no completion-service call
at all (the returned call trace is empty). -/
theorem template_error_before_any_call (env : Env) (g : Gen) (q : String)
    (hm : g.model ≠ "text-davinci-003")
    (hr : containsSubS "### Response:" env.promptFileContent = false) :
    generate_query env g q = ([], .error .indexError) := by
  rcases h1 : pyIndexS (pySplit env.promptFileContent "### Input:") 1 with e | tail
  · have he := pyIndexS_error _ _ _ h1
    subst he
    simp [generate_query, hm, h1]
  · have h2 : pyIndexS (pySplit env.promptFileContent "### Response:") 1
        = .error .indexError := by
      rw [pySplit_of_not_contains env.promptFileContent "### Response:" hr]
      rfl
    simp [generate_query, hm, h1, h2]

/-- Witness: a concrete delimiter-free template fails fast with no call. -/
theorem template_error_before_any_call_witness :
    generate_query demoEnvNoResp demoGenChat "q" = ([], .error .indexError) :=
  template_error_before_any_call demoEnvNoResp demoGenChat "q" (by decide) (by decide)

/-- Claim C8: mode selection is total and depends only on the model
identifier.  The designated legacy name "text-davinci-003" makes the first
issued request a legacy `Completion.create` call carrying the single
formatted prompt string; every other model identifier makes it a
`ChatCompletion.create` call carrying exactly the three role-tagged messages
system / user / assistant built from the template. -/
theorem mode_selection_total (env : Env) (g : Gen) (q : String)
    (hnt : env.timedOut = false) :
    (g.model = "text-davinci-003" →
       (generate_query env g q).fst.head?
         = some (mkNonchatReq g.model
             (env.fmt env.promptFileContent q (env.pruneMetadata q g.dbName))
             400 0 ["```"] [])) ∧
    (∀ tail asst, g.model ≠ "text-davinci-003" →
       pyIndexS (pySplit env.promptFileContent "### Input:") 1 = .ok tail →
       pyIndexS (pySplit env.promptFileContent "### Response:") 1 = .ok asst →
       (generate_query env g q).fst.head?
         = some (mkChatReq g.model
             [⟨"system", headDS (pySplit env.promptFileContent "### Input:")⟩,
              ⟨"user", env.fmt (headDS (pySplit tail "### Response:")) q
                 (env.pruneMetadata q g.dbName)⟩,
              ⟨"assistant", asst⟩] 400 0 ["```"] [])) := by
  constructor
  · intro hm
    simp only [generate_query, hm, ne_eq, not_true_eq_false, if_false, hnt,
      Bool.false_eq_true]
    rw [fst_finishCompletion, invoker_fst_nonchat]
  · intro tail asst hm hin hresp
    simp only [generate_query, hm, ne_eq, not_false_eq_true, if_true, hin, hresp, hnt,
      Bool.false_eq_true, if_false]
    rw [fst_finishCompletion, invoker_fst_chat]

/-- Witness: both modes at concrete environments. -/
theorem mode_selection_total_witness :
    (generate_query demoEnvLegacy demoGenLegacy "q").fst.head?
      = some (mkNonchatReq "text-davinci-003" "TPLqM" 400 0 ["```"] []) ∧
    (generate_query demoEnv demoGenChat "q").fst.head?
      = some (mkChatReq "gpt-4-0613"
          [⟨"system", "S"⟩, ⟨"user", "UqM"⟩, ⟨"assistant", "A"⟩] 400 0 ["```"] []) :=
  ⟨(mode_selection_total demoEnvLegacy demoGenLegacy "q" rfl).1 rfl,
   (mode_selection_total demoEnv demoGenChat "q" rfl).2 "U### Response:A" "A"
      (by decide) rfl rfl⟩

/-- Claim C9: for every raw completion text, the query field produced by
taking the final segment of the split on the fence marker contains no
occurrence of that marker. -/
theorem extracted_query_no_fence_marker (raw : String) :
    containsSubS "```sql" (extractQuery raw) = false := by
  have h := containsSub_lastD_pySplitAux ("```sql".data) (by decide)
    raw.data.length raw.data (Nat.le_refl _)
  unfold extractQuery lastDS pySplit containsSubS
  rw [show ("" : String) = String.mk [] from rfl, lastD_map String.mk]
  exact h

/-- Claim C10: the verbosity flag never influences returned values: both
completion invokers and `generate_query` return identical traces and results
for `verbose = true` and `verbose = false`, all other inputs equal (prints
are the only effect of the flag and carry no return value). -/
theorem verbose_flag_no_output_influence (env : Env) (svc : Svc)
    (db model q p : String) (tmo : Nat) (ca : Option String)
    (messages : List Message) (mt t : Nat) (st : List String)
    (lb : List (String × Int)) :
    get_chat_completion svc true model messages mt t st lb
      = get_chat_completion svc false model messages mt t st lb ∧
    get_nonchat_completion svc true model p mt t st lb
      = get_nonchat_completion svc false model p mt t st lb ∧
    generate_query env ⟨db, model, tmo, true, ca⟩ q
      = generate_query env ⟨db, model, tmo, false, ca⟩ q :=
  ⟨rfl, rfl, rfl⟩

end SqlEval
